import Mathlib

/-
  Verification development for the deep-reader reading-unit pipeline
  (src-tauri/src/reading_unit/*.rs).

  Modelling conventions:
  * Rust `f64` values (scores, weights, thresholds, position ratios) are
    modelled as `ℚ`.  Every constant appearing in the source (±3.0, 1.2,
    0.05, ...) is an exact decimal, and every comparison proved below is
    bounded away from any rounding boundary of binary64, so the rational
    model and the floating-point code take the same branches.
  * Rust `usize`/`u32` become `Nat`, `i32` becomes `Int`,
    `Vec`/slices become `List`, `Option`/`Result` become
    `Option`/`Except`.
  * `String::to_lowercase` is modelled on the ASCII range (the keyword
    sets below contain only ASCII letters and CJK characters, which are
    fixed points of Unicode lowercasing).
  * The regex character class `\s` is modelled by the whitespace
    characters relevant to the headings handled here (ASCII whitespace
    and U+3000); all other character classes of the three anchored
    patterns are modelled exactly.
  * The `{:.1}` float formatting used inside some decision-reason
    strings is rendered with `toString` on `ℚ`; no theorem below
    inspects those interpolated substrings.
-/

/-! ## Data model (types.rs) -/

inductive SourceFormat where
  | Epub | Pdf | Txt | Md | Html
deriving DecidableEq

inductive ContentType where
  | Frontmatter | Body | Backmatter
deriving DecidableEq

inductive MergeDecision where
  | Merge | CreateNew
deriving DecidableEq

structure Heading where
  text : String
  level : Option Nat
deriving DecidableEq

structure Segment where
  id : String
  chapter_id : Int
  heading : Option Heading
  length : Nat
  position_frac : ℚ       -- `position_ratio` in the source
  toc_level : Option Nat
  source_format : SourceFormat
  start_block_id : Int
  end_block_id : Int
deriving DecidableEq

structure Summary where
  text : String
  generated_at : Int
  model : String
deriving DecidableEq

structure ReadingUnit where
  id : String
  book_id : Int
  title : String
  level : Nat
  parent_id : Option String
  segment_ids : List String
  start_block_id : Int
  end_block_id : Int
  source : String
  content_type : Option ContentType
  summary : Option Summary
deriving DecidableEq

inductive HeadingStrength where
  | Strong | Weak | NoneH   -- `None` in the source (renamed: `none` clashes with `Option.none`)
deriving DecidableEq

inductive LengthFeature where
  | VeryShort | Short | Medium | Long | VeryLong
deriving DecidableEq

inductive ContentFeature where
  | Copyright | Toc | Preface | Body
deriving DecidableEq

structure SegmentFeatures where
  toc_feature : Option Nat
  heading_feature : HeadingStrength
  length_feature : LengthFeature
  content_feature : ContentFeature
  position_in_book : ℚ
  is_after_strong_heading : Bool
  is_consecutive_strong_heading : Bool
  numbering_continuity : Option Bool
deriving DecidableEq

structure SegmentScore where
  toc_score : Option ℚ
  heading_score : Option ℚ
  length_score : Option ℚ
  content_score : Option ℚ
  position_score : Option ℚ
  continuity_score : Option ℚ
  total_score : ℚ
deriving DecidableEq

def SegmentScore.new : SegmentScore :=
  { toc_score := none, heading_score := none, length_score := none,
    content_score := none, position_score := none, continuity_score := none,
    total_score := 0 }

/-- The scoring weight table.  The source keeps it as a `HashMap<String,f64>`
whose six keys are always populated by `ScoringEngine::new`; we model it as a
structure with one field per key. -/
structure Weights where
  toc : ℚ
  heading : ℚ
  length : ℚ
  content : ℚ
  position : ℚ
  continuity : ℚ
deriving DecidableEq

/-- Contribution of one optional dimension score: present scores contribute
`score * weight`, absent ones contribute nothing (types.rs `calculate_total`). -/
def dimContrib (s : Option ℚ) (w : ℚ) : ℚ :=
  match s with
  | some v => v * w
  | none => 0

theorem dimContrib_none (w : ℚ) : dimContrib none w = 0 := rfl

theorem dimContrib_some (v w : ℚ) : dimContrib (some v) w = v * w := rfl

/-- Model of `SegmentScore::calculate_total` (types.rs): weighted sum over present
dimensions, written into `total_score`. -/
def SegmentScore.calculate_total (score : SegmentScore) (weights : Weights) : SegmentScore :=
  { score with total_score :=
      dimContrib score.toc_score weights.toc +
      dimContrib score.heading_score weights.heading +
      dimContrib score.length_score weights.length +
      dimContrib score.content_score weights.content +
      dimContrib score.position_score weights.position +
      dimContrib score.continuity_score weights.continuity }

/-! ## String helpers (modelling `str::contains` and `to_lowercase`) -/

def charLower (c : Char) : Char :=
  if 'A' ≤ c ∧ c ≤ 'Z' then Char.ofNat (c.toNat + 32) else c

def strToLower (s : String) : String :=
  ⟨s.data.map charLower⟩

/-- Whether `pat` occurs as a contiguous run inside `hay`
(`str::contains`; byte-substring search on valid UTF-8 coincides with
character-level infix search). -/
def listContainsSeq (pat : List Char) : List Char → Bool
  | [] => pat.isEmpty
  | c :: rest => pat.isPrefixOf (c :: rest) || listContainsSeq pat rest

def strContains (s pat : String) : Bool :=
  listContainsSeq pat.data s.data

/-! ## Regex matchers (feature_extractor.rs / fallback_strategy.rs)

The three anchored patterns of the source:
  strong:  `第\s*[一二三四五六七八九十0-9]+\s*章|Chapter\s+\d+|Part\s+[IVX0-9]+`
  weak:    `\d+\.\d+|\d+\.\d+\.\d+|§\s*\d+`
  number:  `\d+(?:\.\d+)*`  (capture group, greedy)
All character classes involved in one alternative are pairwise disjoint, so
greedy scanning coincides with the backtracking semantics of `is_match`. -/

def isWsChar (c : Char) : Bool :=
  c = ' ' || c = '\t' || c = '\n' || c = '\r' || c = '\x0b' || c = '\x0c' || c = '　'

def isCnDigitChar (c : Char) : Bool :=
  c.isDigit || c = '一' || c = '二' || c = '三' || c = '四' || c = '五' ||
    c = '六' || c = '七' || c = '八' || c = '九' || c = '十'

def isRomanDigitChar (c : Char) : Bool :=
  c.isDigit || c = 'I' || c = 'V' || c = 'X'

/-- Consume an exact literal at the head of the input. -/
def afterLit : List Char → List Char → Option (List Char)
  | [], cs => some cs
  | _ :: _, [] => none
  | l :: ls, c :: cs => if c = l then afterLit ls cs else none

/-- Pattern `\s+X` where `X` demands its first character satisfy `p`. -/
def wsThenClass (p : Char → Bool) (cs : List Char) : Bool :=
  match cs with
  | [] => false
  | c :: _ =>
    isWsChar c &&
      (match cs.dropWhile isWsChar with
       | d :: _ => p d
       | [] => false)

/-- The strong chapter-heading pattern, anchored at the start. -/
def matchStrongL (cs : List Char) : Bool :=
  (match cs with
   | c :: rest =>
     c = '第' &&
       (let r1 := rest.dropWhile isWsChar
        match r1 with
        | d :: _ =>
          isCnDigitChar d &&
            (match (r1.dropWhile isCnDigitChar).dropWhile isWsChar with
             | e :: _ => e = '章'
             | [] => false)
        | [] => false)
   | [] => false)
  ||
  (match afterLit ('C' :: 'h' :: 'a' :: 'p' :: 't' :: 'e' :: 'r' :: []) cs with
   | some rest => wsThenClass Char.isDigit rest
   | none => false)
  ||
  (match afterLit ('P' :: 'a' :: 'r' :: 't' :: []) cs with
   | some rest => wsThenClass isRomanDigitChar rest
   | none => false)

/-- The weak heading pattern, anchored at the start.  For pure matching the
alternative `\d+\.\d+\.\d+` is subsumed by `\d+\.\d+`. -/
def matchWeakL (cs : List Char) : Bool :=
  (match cs with
   | c :: _ =>
     c.isDigit &&
       (match cs.dropWhile Char.isDigit with
        | '.' :: d :: _ => d.isDigit
        | _ => false)
   | [] => false)
  ||
  (match cs with
   | '§' :: rest =>
     (match rest.dropWhile isWsChar with
      | d :: _ => d.isDigit
      | [] => false)
   | _ => false)

def isStrongHeading (s : String) : Bool := matchStrongL s.data

def isWeakHeading (s : String) : Bool := matchWeakL s.data

/-! ## FeatureExtractor (feature_extractor.rs) -/

def copyrightKeywordsFE : List String :=
  ["ISBN", "All rights reserved", "Copyright", "版权", "出版社",
   "印刷", "发行", "CIP", "©", "版权所有"]

def tocKeywordsFE : List String :=
  ["目录", "导航", "Contents", "TOC", "Table of Contents"]

def prefaceKeywordsFE : List String :=
  ["序", "序言", "前言", "致谢", "鸣谢", "导读", "引言",
   "Preface", "Foreword", "Introduction", "Acknowledgments", "Summary"]

def extract_heading_strength (segment : Segment) : HeadingStrength :=
  match segment.heading with
  | some h =>
    if matchStrongL h.text.data then HeadingStrength.Strong
    else if matchWeakL h.text.data then HeadingStrength.Weak
    else HeadingStrength.NoneH
  | none => HeadingStrength.NoneH

def extract_length_feature (segment : Segment) : LengthFeature :=
  if segment.length ≤ 299 then LengthFeature.VeryShort
  else if segment.length ≤ 799 then LengthFeature.Short
  else if segment.length ≤ 1999 then LengthFeature.Medium
  else if segment.length ≤ 5999 then LengthFeature.Long
  else LengthFeature.VeryLong

def extract_content_feature (segment : Segment) : ContentFeature :=
  match segment.heading with
  | some h =>
    let text := strToLower h.text
    if copyrightKeywordsFE.any (fun k => strContains text (strToLower k)) then
      ContentFeature.Copyright
    else if tocKeywordsFE.any (fun k => strContains text (strToLower k)) then
      ContentFeature.Toc
    else if prefaceKeywordsFE.any (fun k => strContains text (strToLower k)) then
      ContentFeature.Preface
    else ContentFeature.Body
  | none => ContentFeature.Body

def is_after_strong_heading (prev_segment : Option Segment) : Bool :=
  match prev_segment with
  | some prev =>
    match prev.heading with
    | some h => matchStrongL h.text.data
    | none => false
  | none => false

def is_consecutive_strong_heading (segment : Segment) (prev_segment : Option Segment) : Bool :=
  (match segment.heading with
   | some h => matchStrongL h.text.data
   | none => false)
  && is_after_strong_heading prev_segment

/-- Decimal value of a run of ASCII digits. -/
def digitsVal (run : List Char) : Nat :=
  run.foldl (fun a c => a * 10 + (c.toNat - 48)) 0

/-- Model of `str::parse::<u32>().ok()` on a nonempty digit run: fails exactly on
overflow past `u32::MAX`. -/
def parseU32 (run : List Char) : Option Nat :=
  if digitsVal run < 4294967296 then some (digitsVal run) else none

/-- The `(?:\.\d+)*` tail of the number capture: repeatedly consume a dot
followed by a nonempty digit run.  The fuel argument (initialised with the
length of the remaining input, an upper bound on the number of components)
only serves structural termination. -/
def numTailAux : Nat → List Char → List (List Char)
  | 0, _ => []
  | _ + 1, [] => []
  | fuel + 1, c :: rest =>
    if c = '.' then
      let run := rest.takeWhile Char.isDigit
      if run.isEmpty then []
      else run :: numTailAux fuel (rest.dropWhile Char.isDigit)
    else []

/-- Model of `FeatureExtractor::extract_section_number`: capture the greedy leading
`\d+(?:\.\d+)*`, split it on dots, parse each component as `u32`, drop the
components that fail to parse, and return the rest if nonempty. -/
def extract_section_number (segment : Segment) : Option (List Nat) :=
  match segment.heading with
  | none => none
  | some h =>
    let cs := h.text.data
    let run := cs.takeWhile Char.isDigit
    if run.isEmpty then none
    else
      let rest := cs.dropWhile Char.isDigit
      let comps := run :: numTailAux rest.length rest
      let nums := comps.filterMap parseU32
      if nums.isEmpty then none else some nums

/-- Model of `FeatureExtractor::is_continuous_numbering`.  The source compares
`curr_last == prev_last + 1` on `u32` (feature_extractor.rs:218); that
addition wraps to 0 at `u32::MAX = 4294967295` in a release build (a debug
build panics there), so it is modelled as addition modulo 2^32.  Both
operands are parsed by `parseU32` and hence already below 2^32. -/
def is_continuous_numbering (prev curr : List Nat) : Bool :=
  if prev.length ≠ curr.length then false
  else
    match prev.getLast?, curr.getLast? with
    | some prev_last, some curr_last =>
      if curr_last = (prev_last + 1) % 4294967296 then decide (prev.dropLast = curr.dropLast)
      else false
    | _, _ => false

def extract_numbering_continuity (segment : Segment) (prev_segment : Option Segment) :
    Option Bool :=
  let current_number := extract_section_number segment
  let prev_number := prev_segment.bind extract_section_number
  match current_number, prev_number with
  | some curr, some prev => some (is_continuous_numbering prev curr)
  | _, _ => none

def extract_features (segment : Segment) (prev_segment : Option Segment) : SegmentFeatures :=
  { toc_feature := segment.toc_level
    heading_feature := extract_heading_strength segment
    length_feature := extract_length_feature segment
    content_feature := extract_content_feature segment
    position_in_book := segment.position_frac
    is_after_strong_heading := is_after_strong_heading prev_segment
    is_consecutive_strong_heading := is_consecutive_strong_heading segment prev_segment
    numbering_continuity := extract_numbering_continuity segment prev_segment }

/-! ## ScoringEngine (scoring_engine.rs) -/

structure ScoringEngine where
  weights : Weights
deriving DecidableEq

def ScoringEngine.new : ScoringEngine :=
  { weights := { toc := 1.5, heading := 1.2, length := 1, content := 1,
                 position := 0.8, continuity := 0.8 } }

def calculate_toc_score (features : SegmentFeatures) : Option ℚ :=
  features.toc_feature.map (fun level =>
    if level = 1 then -3
    else if level = 2 then 1
    else 2)

def calculate_heading_score (features : SegmentFeatures) : ℚ :=
  match features.heading_feature with
  | HeadingStrength.Strong => -3
  | HeadingStrength.Weak => 2
  | HeadingStrength.NoneH => 1

def calculate_length_score (features : SegmentFeatures) : ℚ :=
  match features.length_feature with
  | LengthFeature.VeryShort => 3
  | LengthFeature.Short => 2
  | LengthFeature.Medium => 0
  | LengthFeature.Long => -1
  | LengthFeature.VeryLong => -2

def calculate_content_score (features : SegmentFeatures) : ℚ :=
  match features.content_feature with
  | ContentFeature.Copyright => 5
  | ContentFeature.Toc => 5
  | ContentFeature.Preface => 5
  | ContentFeature.Body => 0

def calculate_position_score (features : SegmentFeatures) : ℚ :=
  (if features.position_in_book < 0.05 ∧
      features.heading_feature ≠ HeadingStrength.Strong then 2 else 0) +
  (if features.position_in_book > 0.95 then 1 else 0) +
  (if features.is_after_strong_heading then 1 else 0) +
  (if features.is_consecutive_strong_heading then -1 else 0)

def calculate_continuity_score (features : SegmentFeatures) : Option ℚ :=
  features.numbering_continuity.map (fun is_continuous =>
    if is_continuous then 2 else -1)

def ScoringEngine.calculate_score (engine : ScoringEngine) (features : SegmentFeatures) :
    SegmentScore :=
  let score : SegmentScore :=
    { SegmentScore.new with
        toc_score := calculate_toc_score features
        heading_score := some (calculate_heading_score features)
        length_score := some (calculate_length_score features)
        content_score := some (calculate_content_score features)
        position_score := some (calculate_position_score features)
        continuity_score := calculate_continuity_score features }
  score.calculate_total engine.weights

/-! ## DecisionEngine (decision_engine.rs) -/

structure DecisionEngine where
  merge_threshold : ℚ
  new_threshold : ℚ
  gray_zone_length : Nat
deriving DecidableEq

def DecisionEngine.new : DecisionEngine :=
  { merge_threshold := 3, new_threshold := -3, gray_zone_length := 800 }

def DecisionEngine.determine_level (features : SegmentFeatures) (_segment : Segment) : Nat :=
  if features.heading_feature = HeadingStrength.Strong then 1
  else if features.heading_feature = HeadingStrength.Weak then 2
  else 1

/-- First-priority gate: `content_score` present and at least `5.0`. -/
def contentRuleFires (score : SegmentScore) : Bool :=
  match score.content_score with
  | some content_score => decide (5 ≤ content_score)
  | none => false

def isMetaContent : ContentFeature → Bool
  | ContentFeature.Copyright => true
  | ContentFeature.Toc => true
  | ContentFeature.Preface => true
  | ContentFeature.Body => false

/-- Rendering of a rational in a reason string (the source formats the
corresponding `f64` with `{:.1}`; no theorem inspects this substring). -/
def qStr (q : ℚ) : String := toString q

/-- Model of `DecisionEngine::make_decision`: the strict priority cascade. -/
def DecisionEngine.make_decision (engine : DecisionEngine) (score : SegmentScore)
    (features : SegmentFeatures) (segment : Segment) :
    MergeDecision × String × Option Nat :=
  if contentRuleFires score then
    (MergeDecision.Merge, "元信息内容，强制合并", none)
  else if features.toc_feature = some 1 ∧ isMetaContent features.content_feature = false then
    (MergeDecision.CreateNew, "TOC 一级节点，创建新章节", some 1)
  else if features.toc_feature = some 2 then
    (MergeDecision.CreateNew, "TOC 二级节点，创建新小节", some 2)
  else if engine.merge_threshold ≤ score.total_score then
    (MergeDecision.Merge,
      "总分 " ++ qStr score.total_score ++ " >= +" ++ qStr engine.merge_threshold ++ "，倾向合并",
      none)
  else if score.total_score ≤ engine.new_threshold then
    (MergeDecision.CreateNew,
      "总分 " ++ qStr score.total_score ++ " <= " ++ qStr engine.new_threshold ++ "，创建新章节",
      some (DecisionEngine.determine_level features segment))
  else if segment.length < engine.gray_zone_length then
    (MergeDecision.Merge,
      "灰区判断：长度 " ++ toString segment.length ++ " < " ++
        toString engine.gray_zone_length ++ "，合并",
      none)
  else
    (MergeDecision.CreateNew,
      "灰区判断：长度 " ++ toString segment.length ++ " >= " ++
        toString engine.gray_zone_length ++ "，创建新章节",
      some (DecisionEngine.determine_level features segment))

/-! ## FallbackStrategy (fallback_strategy.rs) -/

structure FallbackStrategy where
  gray_zone_length : Nat
deriving DecidableEq

def FallbackStrategy.new : FallbackStrategy :=
  { gray_zone_length := 800 }

def FallbackStrategy.apply (strategy : FallbackStrategy) (segment : Segment) :
    MergeDecision × String :=
  match segment.heading with
  | some h =>
    if matchStrongL h.text.data then
      (MergeDecision.CreateNew, "降级策略：强章标题，创建新章节")
    else if segment.length < strategy.gray_zone_length then
      (MergeDecision.Merge,
        "降级策略：长度 " ++ toString segment.length ++ " < " ++
          toString strategy.gray_zone_length ++ "，合并")
    else
      (MergeDecision.CreateNew,
        "降级策略：长度 " ++ toString segment.length ++ " >= " ++
          toString strategy.gray_zone_length ++ "，创建新章节")
  | none =>
    if segment.length < strategy.gray_zone_length then
      (MergeDecision.Merge,
        "降级策略：长度 " ++ toString segment.length ++ " < " ++
          toString strategy.gray_zone_length ++ "，合并")
    else
      (MergeDecision.CreateNew,
        "降级策略：长度 " ++ toString segment.length ++ " >= " ++
          toString strategy.gray_zone_length ++ "，创建新章节")

/-- The full per-segment pipeline with default weights and thresholds:
features, then score, then decision. -/
def pipeline_decision (segment : Segment) (prev_segment : Option Segment) :
    MergeDecision × String × Option Nat :=
  let features := extract_features segment prev_segment
  let score := ScoringEngine.calculate_score ScoringEngine.new features
  DecisionEngine.make_decision DecisionEngine.new score features segment

/-! ## ReadingUnitBuilder (reading_unit_builder.rs) -/

def copyrightKeywordsRB : List String :=
  ["isbn", "all rights reserved", "copyright", "版权", "出版社",
   "印刷", "发行", "cip", "©", "版权所有"]

def tocKeywordsRB : List String :=
  ["目录", "导航", "contents", "toc", "table of contents"]

def prefaceKeywordsRB : List String :=
  ["序", "序言", "前言", "致谢", "鸣谢", "导读", "引言", "preface", "foreword",
   "introduction", "acknowledgments", "summary"]

/-- The index bound below which the "early short segment" positional rule may
apply: `(total as f64 * 0.05) as usize`, i.e. `total / 20` (truncation of the
product agrees with integer division for every realistic `total`). -/
def fivePercentIndexBound (total : Nat) : Nat := total / 20

/-- The index bound at and after which the backmatter positional rule
applies: `(total as f64 * 0.95) as usize`, i.e. `19 * total / 20`. -/
def backmatterIndexBound (total : Nat) : Nat := 19 * total / 20

/-- Model of `ReadingUnitBuilder::determine_content_type`. -/
def determine_content_type (segment : Segment) (index total : Nat) : Option ContentType :=
  match segment.heading with
  | some h =>
    let text := strToLower h.text
    if copyrightKeywordsRB.any (fun k => strContains text k) then
      some ContentType.Frontmatter
    else if tocKeywordsRB.any (fun k => strContains text k) then
      some ContentType.Frontmatter
    else if prefaceKeywordsRB.any (fun k => strContains text k) then
      some ContentType.Frontmatter
    else if index < fivePercentIndexBound total ∧ segment.length < 500 then
      some ContentType.Frontmatter
    else if backmatterIndexBound total ≤ index then
      some ContentType.Backmatter
    else
      some ContentType.Body
  | none =>
    if index < fivePercentIndexBound total ∧ segment.length < 500 then
      some ContentType.Frontmatter
    else if backmatterIndexBound total ≤ index then
      some ContentType.Backmatter
    else
      some ContentType.Body

/-- Model of `ReadingUnitBuilder::create_reading_unit`; `uid` is the value of the
per-builder counter used for this unit. -/
def create_reading_unit (book_id : Int) (uid : Nat) (segment : Segment)
    (level : Nat) (parent_id : Option String) (content_type : Option ContentType) :
    ReadingUnit :=
  { id := "ru-" ++ toString book_id ++ "-" ++ toString uid
    book_id := book_id
    title :=
      match segment.heading with
      | some h => h.text
      | none => "未命名章节 " ++ toString segment.chapter_id
    level := level
    parent_id := parent_id
    segment_ids := [segment.id]
    start_block_id := segment.start_block_id
    end_block_id := segment.end_block_id
    source := if segment.toc_level.isSome then "toc" else "heuristic"
    content_type := content_type
    summary := none }

abbrev DecisionTriple := MergeDecision × String × Option Nat

/-- The loop state of `ReadingUnitBuilder::build`: emitted units, the
currently open unit, the id of the most recent level-1 unit, and the unit-id
counter. -/
structure BuildState where
  units : List ReadingUnit
  current : Option ReadingUnit
  parent1 : Option String
  next_id : Nat
deriving DecidableEq

/-- All units the state would produce if the stream ended now. -/
def outUnits (st : BuildState) : List ReadingUnit :=
  st.units ++ st.current.toList

/-- One iteration of the `build` loop (lines 40–91 of
reading_unit_builder.rs) at stream index `i`. -/
def buildStep (book_id : Int) (total : Nat) (i : Nat) (segment : Segment)
    (dec : DecisionTriple) (st : BuildState) : BuildState :=
  match dec.1 with
  | MergeDecision.Merge =>
    match st.current with
    | some unit =>
      let merged := { unit with segment_ids := unit.segment_ids ++ [segment.id],
                                end_block_id := segment.end_block_id }
      { st with current := some merged }
    | none =>
      let content_type := determine_content_type segment i total
      { st with
          current := some (create_reading_unit book_id st.next_id segment 1 none content_type)
          next_id := st.next_id + 1 }
  | MergeDecision.CreateNew =>
    let emitted := st.units ++ st.current.toList
    let unit_level := dec.2.2.getD 1
    let parent_id := if unit_level = 2 then st.parent1 else none
    let content_type := determine_content_type segment i total
    let new_unit := create_reading_unit book_id st.next_id segment unit_level parent_id content_type
    { units := emitted
      current := some new_unit
      parent1 := if unit_level = 1 then some new_unit.id else st.parent1
      next_id := st.next_id + 1 }

def buildGo (book_id : Int) (total : Nat) :
    Nat → List (Segment × DecisionTriple) → BuildState → BuildState
  | _, [], st => st
  | i, p :: rest, st => buildGo book_id total (i + 1) rest (buildStep book_id total i p.1 p.2 st)

/-- Model of `ReadingUnitBuilder::build`. -/
def ReadingUnitBuilder.build (book_id : Int) (segments : List Segment)
    (decisions : List DecisionTriple) : Except String (List ReadingUnit) :=
  if segments.length ≠ decisions.length then
    Except.error "Segments 和 decisions 长度不匹配"
  else
    Except.ok (outUnits (buildGo book_id segments.length 0 (segments.zip decisions)
      { units := [], current := none, parent1 := none, next_id := 1 }))

/-- Peel an `Except` down to its payload (empty list on error); used to name
concrete build outputs inside closed statements. -/
def okD (e : Except String (List ReadingUnit)) : List ReadingUnit :=
  match e with
  | Except.ok v => v
  | Except.error _ => []

/-! ## Shared concrete inputs for witnesses -/

def mkSeg (idStr : String) (ch : Int) (headingText : Option String) (len : Nat)
    (pos : ℚ) (toc : Option Nat) (sb eb : Int) : Segment :=
  { id := idStr, chapter_id := ch,
    heading := headingText.map (fun t => { text := t, level := none }),
    length := len, position_frac := pos, toc_level := toc,
    source_format := SourceFormat.Epub, start_block_id := sb, end_block_id := eb }

def plainFeatures (toc : Option Nat) (hs : HeadingStrength) (cf : ContentFeature) :
    SegmentFeatures :=
  { toc_feature := toc, heading_feature := hs, length_feature := LengthFeature.Medium,
    content_feature := cf, position_in_book := 1/2, is_after_strong_heading := false,
    is_consecutive_strong_heading := false, numbering_continuity := none }

def plainScore (total : ℚ) (content : Option ℚ) : SegmentScore :=
  { SegmentScore.new with total_score := total, content_score := content }

/-! ## C2: content_score ≥ 5.0 forces Merge -/

/-- C2: whenever the content score is present and at least 5.0,
`DecisionEngine::make_decision` returns `Merge` with the forced-merge reason
and no level — for every score (any total, including −10.0), any features
(any TOC level), any segment and any threshold configuration. -/
theorem claim_C2_content_forces_merge (engine : DecisionEngine) (score : SegmentScore)
    (features : SegmentFeatures) (segment : Segment) (c : ℚ)
    (h1 : score.content_score = some c) (h2 : 5 ≤ c) :
    DecisionEngine.make_decision engine score features segment =
      (MergeDecision.Merge, "元信息内容，强制合并", none) := by
  have hb : contentRuleFires score = true := by
    simp [contentRuleFires, h1, h2]
  simp [DecisionEngine.make_decision, hb]

theorem claim_C2_witness :
    DecisionEngine.make_decision DecisionEngine.new (plainScore (-10) (some 5))
      (plainFeatures none HeadingStrength.NoneH ContentFeature.Copyright)
      (mkSeg "w2" 1 (some "版权所有") 100 (1/2) none 1 1) =
      (MergeDecision.Merge, "元信息内容，强制合并", none) :=
  claim_C2_content_forces_merge DecisionEngine.new (plainScore (-10) (some 5))
    (plainFeatures none HeadingStrength.NoneH ContentFeature.Copyright)
    (mkSeg "w2" 1 (some "版权所有") 100 (1/2) none 1 1) 5 rfl (by norm_num)

/-! ## C3: TOC level 1 with Body content forces CreateNew level 1 -/

/-- C3: if the content score is absent or below 5.0, the TOC feature is level
1 and the content feature is Body, `make_decision` returns `CreateNew` at
level 1 — regardless of the total score (in particular even when it is at or
above the merge threshold). -/
theorem claim_C3_toc1_creates_new (engine : DecisionEngine) (score : SegmentScore)
    (features : SegmentFeatures) (segment : Segment)
    (hc : score.content_score = none ∨ ∃ c, score.content_score = some c ∧ c < 5)
    (ht : features.toc_feature = some 1)
    (hb : features.content_feature = ContentFeature.Body) :
    DecisionEngine.make_decision engine score features segment =
      (MergeDecision.CreateNew, "TOC 一级节点，创建新章节", some 1) := by
  have hcr : contentRuleFires score = false := by
    rcases hc with h | ⟨c, hsome, hlt⟩
    · simp [contentRuleFires, h]
    · simp [contentRuleFires, hsome, not_le.mpr hlt]
  simp [DecisionEngine.make_decision, hcr, ht, hb, isMetaContent]

theorem claim_C3_witness :
    DecisionEngine.make_decision DecisionEngine.new (plainScore 5 (some 0))
      (plainFeatures (some 1) HeadingStrength.Strong ContentFeature.Body)
      (mkSeg "w3" 1 (some "第一章") 1000 (1/2) (some 1) 1 1) =
      (MergeDecision.CreateNew, "TOC 一级节点，创建新章节", some 1) :=
  claim_C3_toc1_creates_new DecisionEngine.new (plainScore 5 (some 0))
    (plainFeatures (some 1) HeadingStrength.Strong ContentFeature.Body)
    (mkSeg "w3" 1 (some "第一章") 1000 (1/2) (some 1) 1 1)
    (Or.inr ⟨0, rfl, by norm_num⟩) rfl rfl

/-! ## C4: gray-zone length boundary is a strict < 800 -/

/-- C4: under the default thresholds, whenever the gray zone is reached
(content score absent or below 5.0, TOC level neither 1 nor 2, total score
strictly between −3.0 and +3.0), the decision is `Merge` exactly for segment
lengths strictly below 800 and `CreateNew` for lengths of 800 and above. -/
theorem claim_C4_gray_zone_boundary (score : SegmentScore) (features : SegmentFeatures)
    (segment : Segment)
    (hc : score.content_score = none ∨ ∃ c, score.content_score = some c ∧ c < 5)
    (ht : features.toc_feature = none ∨
      ∃ l, features.toc_feature = some l ∧ l ≠ 1 ∧ l ≠ 2)
    (hg : -3 < score.total_score ∧ score.total_score < 3) :
    (segment.length < 800 →
      (DecisionEngine.make_decision DecisionEngine.new score features segment).1 =
        MergeDecision.Merge) ∧
    (800 ≤ segment.length →
      (DecisionEngine.make_decision DecisionEngine.new score features segment).1 =
        MergeDecision.CreateNew) := by
  have hcr : contentRuleFires score = false := by
    rcases hc with h | ⟨c, hsome, hlt⟩
    · simp [contentRuleFires, h]
    · simp [contentRuleFires, hsome, not_le.mpr hlt]
  have ht1 : features.toc_feature ≠ some 1 := by
    rcases ht with h | ⟨l, hl, h1, _⟩
    · simp [h]
    · simp [hl]; intro h; exact h1 h
  have ht2 : features.toc_feature ≠ some 2 := by
    rcases ht with h | ⟨l, hl, _, h2⟩
    · simp [h]
    · simp [hl]; intro h; exact h2 h
  have h4 : ¬ (DecisionEngine.new.merge_threshold ≤ score.total_score) := by
    simp only [DecisionEngine.new]
    exact not_le.mpr hg.2
  have h5 : ¬ (score.total_score ≤ DecisionEngine.new.new_threshold) := by
    simp only [DecisionEngine.new]
    exact not_le.mpr hg.1
  constructor
  · intro hlen
    simp only [DecisionEngine.make_decision, hcr, Bool.false_eq_true, if_false]
    rw [if_neg (fun h => ht1 h.1), if_neg ht2, if_neg h4, if_neg h5,
      if_pos (show segment.length < DecisionEngine.new.gray_zone_length from hlen)]
  · intro hlen
    simp only [DecisionEngine.make_decision, hcr, Bool.false_eq_true, if_false]
    rw [if_neg (fun h => ht1 h.1), if_neg ht2, if_neg h4, if_neg h5,
      if_neg (show ¬ segment.length < DecisionEngine.new.gray_zone_length from not_lt.mpr hlen)]

theorem claim_C4_witness :
    ((DecisionEngine.make_decision DecisionEngine.new (plainScore 0 (some 0))
        (plainFeatures none HeadingStrength.NoneH ContentFeature.Body)
        (mkSeg "w4a" 1 (some "普通标题") 799 (1/2) none 1 1)).1 = MergeDecision.Merge) ∧
    ((DecisionEngine.make_decision DecisionEngine.new (plainScore 0 (some 0))
        (plainFeatures none HeadingStrength.NoneH ContentFeature.Body)
        (mkSeg "w4b" 1 (some "普通标题") 800 (1/2) none 1 1)).1 = MergeDecision.CreateNew) :=
  ⟨(claim_C4_gray_zone_boundary (plainScore 0 (some 0))
      (plainFeatures none HeadingStrength.NoneH ContentFeature.Body)
      (mkSeg "w4a" 1 (some "普通标题") 799 (1/2) none 1 1)
      (Or.inr ⟨0, rfl, by norm_num⟩) (Or.inl rfl) (by decide)).1 (by decide),
   (claim_C4_gray_zone_boundary (plainScore 0 (some 0))
      (plainFeatures none HeadingStrength.NoneH ContentFeature.Body)
      (mkSeg "w4b" 1 (some "普通标题") 800 (1/2) none 1 1)
      (Or.inr ⟨0, rfl, by norm_num⟩) (Or.inl rfl) (by decide)).2 (by decide)⟩

/-! ## C7: numbering continuity -/

/-- The continuity condition as the claim words it: equal length, all
components but the last identical, and the last component of the current
sequence equal to the previous sequence's last component plus one
(unbounded). -/
def specContinuous (prev curr : List Nat) : Prop :=
  prev.length = curr.length ∧ prev.dropLast = curr.dropLast ∧
    ∃ a b, prev.getLast? = some a ∧ curr.getLast? = some b ∧ b = a + 1

/-- The continuity condition as amended: the final increment is the `u32`
computation the program performs, so `prev_last + 1` wraps to 0 at
`u32::MAX = 4294967295`. -/
def specContinuousWrap (prev curr : List Nat) : Prop :=
  prev.length = curr.length ∧ prev.dropLast = curr.dropLast ∧
    ∃ a b, prev.getLast? = some a ∧ curr.getLast? = some b ∧ b = (a + 1) % 4294967296

theorem is_continuous_iff_spec (prev curr : List Nat) :
    is_continuous_numbering prev curr = true ↔ specContinuousWrap prev curr := by
  unfold is_continuous_numbering specContinuousWrap
  by_cases hlen : prev.length = curr.length
  · rw [if_neg (by simp [hlen])]
    rcases hp : prev.getLast? with _ | pl
    · simp [hp]
    · rcases hc : curr.getLast? with _ | cl
      · simp [hc]
      · by_cases hs : cl = (pl + 1) % 4294967296
        · change (if cl = (pl + 1) % 4294967296 then
              decide (prev.dropLast = curr.dropLast) else false) = true ↔ _
          rw [if_pos hs]
          simp only [decide_eq_true_eq]
          constructor
          · intro hd
            exact ⟨hlen, hd, pl, cl, rfl, rfl, hs⟩
          · rintro ⟨-, hd, -⟩
            exact hd
        · change (if cl = (pl + 1) % 4294967296 then
              decide (prev.dropLast = curr.dropLast) else false) = true ↔ _
          rw [if_neg hs]
          simp only [Bool.false_eq_true, false_iff]
          rintro ⟨-, -, a, b, ha, hb, hab⟩
          rw [Option.some.injEq] at ha hb
          subst ha
          subst hb
          exact hs hab
  · rw [if_pos hlen]
    simp [hlen]

/-- C7 (amended): the numbering-continuity feature is `some true` exactly
when both headings parse to leading dot-separated integer sequences of equal
length whose components agree except the last, with the current sequence's
last component equal to the previous sequence's last component plus one
computed in `u32` arithmetic (wrapping to 0 at 4294967295); `some false`
when both parse but that condition fails; and `none` when either side has no
parseable leading number (in particular when there is no previous segment).
The claim's unbounded plus-one reading fails at the wrap point — see the
counterexample. -/
theorem claim_C7_numbering_continuity (s p : Segment) :
    (extract_numbering_continuity s (some p) = some true ↔
      ∃ curr prev, extract_section_number s = some curr ∧
        extract_section_number p = some prev ∧ specContinuousWrap prev curr) ∧
    (extract_numbering_continuity s (some p) = some false ↔
      ∃ curr prev, extract_section_number s = some curr ∧
        extract_section_number p = some prev ∧ ¬ specContinuousWrap prev curr) ∧
    (extract_numbering_continuity s (some p) = none ↔
      extract_section_number s = none ∨ extract_section_number p = none) ∧
    extract_numbering_continuity s none = none := by
  refine ⟨?_, ?_, ?_, ?_⟩
  · rcases hcs : extract_section_number s with _ | curr <;>
      rcases hps : extract_section_number p with _ | prev <;>
        simp [extract_numbering_continuity, hcs, hps]
    exact is_continuous_iff_spec prev curr
  · rcases hcs : extract_section_number s with _ | curr <;>
      rcases hps : extract_section_number p with _ | prev <;>
        simp [extract_numbering_continuity, hcs, hps]
    rw [← is_continuous_iff_spec prev curr]
    simp
  · rcases hcs : extract_section_number s with _ | curr <;>
      rcases hps : extract_section_number p with _ | prev <;>
        simp [extract_numbering_continuity, hcs, hps]
  · rcases hcs : extract_section_number s with _ | curr <;>
      simp [extract_numbering_continuity, hcs]

theorem claim_C7_witness :
    extract_numbering_continuity (mkSeg "c7c" 2 (some "1.2") 100 (1/2) none 2 2)
      (some (mkSeg "c7p" 1 (some "1.1") 100 (1/2) none 1 1)) = some true :=
  (claim_C7_numbering_continuity (mkSeg "c7c" 2 (some "1.2") 100 (1/2) none 2 2)
      (mkSeg "c7p" 1 (some "1.1") 100 (1/2) none 1 1)).1.mpr
    ⟨[1, 2], [1, 1], by decide, by decide, by decide, by decide, 1, 2, rfl, rfl, by decide⟩

/-- C7 counterexample: the headings "4294967295" → "0" both parse
(`parseU32` admits `u32::MAX` itself), and the program's `u32` addition
wraps `4294967295 + 1` to 0 in a release build, so it reports the pair
continuous (`Some(true)`) — while the claim's condition "last component
equal to previous's last component plus 1" fails there (0 ≠ 4294967296). -/
theorem claim_C7_counterexample :
    extract_numbering_continuity (mkSeg "c7w" 2 (some "0") 100 (1/2) none 2 2)
      (some (mkSeg "c7v" 1 (some "4294967295") 100 (1/2) none 1 1)) = some true ∧
    extract_section_number (mkSeg "c7w" 2 (some "0") 100 (1/2) none 2 2) = some [0] ∧
    extract_section_number (mkSeg "c7v" 1 (some "4294967295") 100 (1/2) none 1 1) =
      some [4294967295] ∧
    ¬ specContinuous [4294967295] [0] := by
  refine ⟨by decide, by decide, by decide, ?_⟩
  rintro ⟨-, -, a, b, ha, hb, hab⟩
  simp [List.getLast?] at ha hb
  omega

/-! ## C10: a Merge into an open unit only touches segment_ids and end_block_id -/

/-- C10: when the build loop applies a `Merge` decision while a unit is open,
the open unit keeps its id, book id, title, level, parent, start block,
source, content type and summary; only `segment_ids` (one id appended at the
end) and `end_block_id` (set to the merged segment's end block) change. -/
theorem claim_C10_merge_frame (book_id : Int) (total i : Nat) (segment : Segment)
    (reason : String) (lv : Option Nat) (st : BuildState) (unit : ReadingUnit)
    (h : st.current = some unit) :
    ∃ unit',
      (buildStep book_id total i segment (MergeDecision.Merge, reason, lv) st).current =
        some unit' ∧
      unit'.id = unit.id ∧ unit'.book_id = unit.book_id ∧ unit'.title = unit.title ∧
      unit'.level = unit.level ∧ unit'.parent_id = unit.parent_id ∧
      unit'.start_block_id = unit.start_block_id ∧ unit'.source = unit.source ∧
      unit'.content_type = unit.content_type ∧ unit'.summary = unit.summary ∧
      unit'.segment_ids = unit.segment_ids ++ [segment.id] ∧
      unit'.end_block_id = segment.end_block_id := by
  refine ⟨{ unit with segment_ids := unit.segment_ids ++ [segment.id],
                      end_block_id := segment.end_block_id }, ?_,
    rfl, rfl, rfl, rfl, rfl, rfl, rfl, rfl, rfl, rfl, rfl⟩
  simp [buildStep, h]

theorem claim_C10_witness :
    ∃ unit',
      (buildStep 1 3 1 (mkSeg "w10" 2 (some "正文") 1000 (1/2) none 5 9)
        (MergeDecision.Merge, "合并", none)
        { units := [], current := some (create_reading_unit 1 1
            (mkSeg "w10a" 1 (some "第一章") 1000 0 none 1 4) 1 none (some ContentType.Body)),
          parent1 := none, next_id := 2 }).current = some unit' ∧
      unit'.id = (create_reading_unit 1 1 (mkSeg "w10a" 1 (some "第一章") 1000 0 none 1 4)
          1 none (some ContentType.Body)).id ∧
      unit'.book_id = (create_reading_unit 1 1 (mkSeg "w10a" 1 (some "第一章") 1000 0 none 1 4)
          1 none (some ContentType.Body)).book_id ∧
      unit'.title = (create_reading_unit 1 1 (mkSeg "w10a" 1 (some "第一章") 1000 0 none 1 4)
          1 none (some ContentType.Body)).title ∧
      unit'.level = (create_reading_unit 1 1 (mkSeg "w10a" 1 (some "第一章") 1000 0 none 1 4)
          1 none (some ContentType.Body)).level ∧
      unit'.parent_id = (create_reading_unit 1 1 (mkSeg "w10a" 1 (some "第一章") 1000 0 none 1 4)
          1 none (some ContentType.Body)).parent_id ∧
      unit'.start_block_id = (create_reading_unit 1 1
          (mkSeg "w10a" 1 (some "第一章") 1000 0 none 1 4) 1 none (some ContentType.Body)).start_block_id ∧
      unit'.source = (create_reading_unit 1 1 (mkSeg "w10a" 1 (some "第一章") 1000 0 none 1 4)
          1 none (some ContentType.Body)).source ∧
      unit'.content_type = (create_reading_unit 1 1 (mkSeg "w10a" 1 (some "第一章") 1000 0 none 1 4)
          1 none (some ContentType.Body)).content_type ∧
      unit'.summary = (create_reading_unit 1 1 (mkSeg "w10a" 1 (some "第一章") 1000 0 none 1 4)
          1 none (some ContentType.Body)).summary ∧
      unit'.segment_ids = (create_reading_unit 1 1 (mkSeg "w10a" 1 (some "第一章") 1000 0 none 1 4)
          1 none (some ContentType.Body)).segment_ids ++ [(mkSeg "w10" 2 (some "正文") 1000 (1/2) none 5 9).id] ∧
      unit'.end_block_id = (mkSeg "w10" 2 (some "正文") 1000 (1/2) none 5 9).end_block_id :=
  claim_C10_merge_frame 1 3 1 (mkSeg "w10" 2 (some "正文") 1000 (1/2) none 5 9) "合并" none
    { units := [], current := some (create_reading_unit 1 1
        (mkSeg "w10a" 1 (some "第一章") 1000 0 none 1 4) 1 none (some ContentType.Body)),
      parent1 := none, next_id := 2 }
    (create_reading_unit 1 1 (mkSeg "w10a" 1 (some "第一章") 1000 0 none 1 4) 1 none
      (some ContentType.Body)) rfl

/-! ## C6: build fails exactly on a length mismatch -/

/-- C6: `ReadingUnitBuilder::build` returns `Ok` exactly when the segment
and decision lists have equal length (including both empty); the only error
exit is the length-mismatch check. -/
theorem claim_C6_error_iff_mismatch (book_id : Int) (segments : List Segment)
    (decisions : List DecisionTriple) :
    (∃ units, ReadingUnitBuilder.build book_id segments decisions = Except.ok units) ↔
      segments.length = decisions.length := by
  unfold ReadingUnitBuilder.build
  by_cases h : segments.length = decisions.length
  · rw [if_neg (by simp [h])]
    exact ⟨fun _ => h, fun _ => ⟨_, rfl⟩⟩
  · rw [if_pos h]
    constructor
    · rintro ⟨units, hu⟩
      cases hu
    · intro hh
      exact absurd hh h

theorem claim_C6_witness :
    (∃ units, ReadingUnitBuilder.build 1 [] [] = Except.ok units) ↔
      ([] : List Segment).length = ([] : List DecisionTriple).length :=
  claim_C6_error_iff_mismatch 1 [] []

/-! ## Shared infrastructure for the `build` loop invariants -/

theorem buildGo_induct (b : Int) (total : Nat) (P : BuildState → Prop)
    (Q : DecisionTriple → Prop)
    (hstep : ∀ i seg dec st, Q dec → P st → P (buildStep b total i seg dec st)) :
    ∀ (pairs : List (Segment × DecisionTriple)) (i : Nat) (st : BuildState),
      (∀ pr ∈ pairs, Q pr.2) → P st → P (buildGo b total i pairs st) := by
  intro pairs
  induction pairs with
  | nil => intro i st _ h; exact h
  | cons p rest ih =>
    intro i st hq h
    exact ih (i + 1) _ (fun pr hpr => hq pr (List.mem_cons_of_mem p hpr))
      (hstep i p.1 p.2 st (hq p (List.mem_cons_self p rest)) h)

theorem build_ok_inv (book_id : Int) (segments : List Segment)
    (decisions : List DecisionTriple) (units : List ReadingUnit)
    (h : ReadingUnitBuilder.build book_id segments decisions = Except.ok units) :
    units = outUnits (buildGo book_id segments.length 0 (segments.zip decisions)
      { units := [], current := none, parent1 := none, next_id := 1 }) := by
  unfold ReadingUnitBuilder.build at h
  by_cases hl : segments.length = decisions.length
  · rw [if_neg (by simp [hl])] at h
    injection h with h'
    exact h'.symm
  · rw [if_pos hl] at h
    exact Except.noConfusion h

/-! ## C9: content_type is always populated; the early-frontmatter bound -/

theorem determine_content_type_isSome (segment : Segment) (i total : Nat) :
    (determine_content_type segment i total).isSome = true := by
  unfold determine_content_type
  cases hh : segment.heading <;> dsimp only <;> (repeat' split) <;> rfl

theorem buildStep_content_isSome (b : Int) (total i : Nat) (seg : Segment)
    (dec : DecisionTriple) (st : BuildState)
    (hp : ∀ u ∈ outUnits st, u.content_type.isSome = true) :
    ∀ u ∈ outUnits (buildStep b total i seg dec st), u.content_type.isSome = true := by
  obtain ⟨d, r, l⟩ := dec
  cases d with
  | Merge =>
    rcases hc : st.current with _ | u0
    · intro u hu
      simp only [buildStep, outUnits, hc, Option.toList_some] at hu
      rcases List.mem_append.mp hu with h1 | h2
      · exact hp u (by simp [outUnits, hc, h1])
      · simp at h2
        subst h2
        exact determine_content_type_isSome seg i total
    · intro u hu
      simp only [buildStep, outUnits, hc, Option.toList_some] at hu
      rcases List.mem_append.mp hu with h1 | h2
      · exact hp u (by simp [outUnits, hc, h1])
      · simp at h2
        subst h2
        exact hp u0 (by simp [outUnits, hc])
  | CreateNew =>
    intro u hu
    simp only [buildStep, outUnits, Option.toList_some] at hu
    rcases List.mem_append.mp hu with h1 | h2
    · exact hp u (by simpa [outUnits] using h1)
    · simp at h2
      subst h2
      exact determine_content_type_isSome seg i total

/-- C9: `determine_content_type` is total (never `None`, falling through to
`Some(Body)`), hence every unit of a successful `build` carries
`content_type = Some _`; and because the first-5% bound truncates
`total × 0.05`, it is zero for every book with fewer than 20 segments, so
the early-short-segment positional rule can never fire there. -/
theorem claim_C9_content_type_total :
    (∀ (segment : Segment) (i total : Nat),
      (determine_content_type segment i total).isSome = true) ∧
    (∀ (book_id : Int) (segments : List Segment) (decisions : List DecisionTriple)
      (units : List ReadingUnit),
      ReadingUnitBuilder.build book_id segments decisions = Except.ok units →
      ∀ u ∈ units, u.content_type.isSome = true) ∧
    (∀ total : Nat, total < 20 → fivePercentIndexBound total = 0) := by
  refine ⟨determine_content_type_isSome, ?_, ?_⟩
  · intro book_id segments decisions units h
    rw [build_ok_inv book_id segments decisions units h]
    exact buildGo_induct book_id segments.length
      (fun st => ∀ u ∈ outUnits st, u.content_type.isSome = true) (fun _ => True)
      (fun i seg dec st _ hp => buildStep_content_isSome book_id segments.length i seg dec st hp)
      (segments.zip decisions) 0 _ (fun _ _ => trivial) (by simp [outUnits])
  · intro total h
    exact Nat.div_eq_of_lt h

theorem claim_C9_witness :
    ((determine_content_type (mkSeg "w9" 1 (some "正文内容") 100 0 none 1 1) 0 10).isSome = true) ∧
    (∀ u ∈ okD (ReadingUnitBuilder.build 3
        [mkSeg "w9a" 1 (some "第一章") 1000 0 none 1 2]
        [(MergeDecision.CreateNew, "新章节", some 1)]),
      u.content_type.isSome = true) ∧
    fivePercentIndexBound 19 = 0 :=
  ⟨claim_C9_content_type_total.1 (mkSeg "w9" 1 (some "正文内容") 100 0 none 1 1) 0 10,
   claim_C9_content_type_total.2.1 3
     [mkSeg "w9a" 1 (some "第一章") 1000 0 none 1 2]
     [(MergeDecision.CreateNew, "新章节", some 1)] _ rfl,
   claim_C9_content_type_total.2.2 19 (by norm_num)⟩

/-! ## C8: unit levels -/

theorem buildStep_levels (b : Int) (total i : Nat) (seg : Segment) (dec : DecisionTriple)
    (st : BuildState)
    (hq : dec.2.2 = none ∨ dec.2.2 = some 1 ∨ dec.2.2 = some 2)
    (hp : ∀ u ∈ outUnits st, u.level = 1 ∨ u.level = 2) :
    ∀ u ∈ outUnits (buildStep b total i seg dec st), u.level = 1 ∨ u.level = 2 := by
  obtain ⟨d, r, l⟩ := dec
  cases d with
  | Merge =>
    rcases hc : st.current with _ | u0
    · intro u hu
      simp only [buildStep, outUnits, hc, Option.toList_some] at hu
      rcases List.mem_append.mp hu with h1 | h2
      · exact hp u (by simp [outUnits, hc, h1])
      · simp at h2
        subst h2
        exact Or.inl rfl
    · intro u hu
      simp only [buildStep, outUnits, hc, Option.toList_some] at hu
      rcases List.mem_append.mp hu with h1 | h2
      · exact hp u (by simp [outUnits, hc, h1])
      · simp at h2
        subst h2
        exact hp u0 (by simp [outUnits, hc])
  | CreateNew =>
    intro u hu
    simp only [buildStep, outUnits, Option.toList_some] at hu
    rcases List.mem_append.mp hu with h1 | h2
    · exact hp u (by simpa [outUnits] using h1)
    · simp at h2
      subst h2
      show (l.getD 1 = 1 ∨ l.getD 1 = 2)
      rcases hq with h | h | h <;> simp_all

/-- C8 (amended): whenever every decision carries a level of `None`, `Some 1`
or `Some 2` — as the decision engine produces — every unit of a successful
`build` has level 1 or 2; and a `CreateNew` decision carrying no level always
opens a level-1 unit.  (For an arbitrary decision list the property fails:
see the counterexample with level `Some 3`.) -/
theorem claim_C8_levels :
    (∀ (book_id : Int) (segments : List Segment) (decisions : List DecisionTriple)
        (units : List ReadingUnit),
      ReadingUnitBuilder.build book_id segments decisions = Except.ok units →
      (∀ d ∈ decisions, d.2.2 = none ∨ d.2.2 = some 1 ∨ d.2.2 = some 2) →
      ∀ u ∈ units, u.level = 1 ∨ u.level = 2) ∧
    (∀ (book_id : Int) (total i : Nat) (seg : Segment) (reason : String) (st : BuildState),
      ∃ u, (buildStep book_id total i seg (MergeDecision.CreateNew, reason, none) st).current =
        some u ∧ u.level = 1) := by
  constructor
  · intro book_id segments decisions units h hd
    rw [build_ok_inv book_id segments decisions units h]
    exact buildGo_induct book_id segments.length
      (fun st => ∀ u ∈ outUnits st, u.level = 1 ∨ u.level = 2)
      (fun dec => dec.2.2 = none ∨ dec.2.2 = some 1 ∨ dec.2.2 = some 2)
      (fun i seg dec st hq hp => buildStep_levels book_id segments.length i seg dec st hq hp)
      (segments.zip decisions) 0 _
      (fun pr hpr => hd pr.2 (List.of_mem_zip hpr).2) (by simp [outUnits])
  · intro book_id total i seg reason st
    exact ⟨_, rfl, rfl⟩

/-- C8 counterexample: `build` copies an arbitrary decision level into the
unit verbatim, so a `CreateNew` decision carrying level `Some 3` produces a
unit whose level is 3 ∉ {1,2}, refuting the claim for arbitrary
equal-length decision lists. -/
theorem claim_C8_counterexample :
    (okD (ReadingUnitBuilder.build 1 [mkSeg "c8" 1 (some "第一章") 1000 0 none 1 2]
      [(MergeDecision.CreateNew, "新章节", some 3)])).map (fun u => u.level) = [3] ∧
    ¬ ((3 : Nat) = 1 ∨ (3 : Nat) = 2) := by
  constructor
  · rfl
  · decide

theorem claim_C8_witness :
    (∀ u ∈ okD (ReadingUnitBuilder.build 2
        [mkSeg "w8a" 1 (some "第一章") 1000 0 none 1 2,
         mkSeg "w8b" 2 (some "1.1 小节") 500 (1/2) none 3 4]
        [(MergeDecision.CreateNew, "新章节", some 1),
         (MergeDecision.CreateNew, "新小节", some 2)]),
      u.level = 1 ∨ u.level = 2) ∧
    (∃ u, (buildStep 2 2 0 (mkSeg "w8c" 1 (some "序言") 100 0 none 1 1)
        (MergeDecision.CreateNew, "无层级", none)
        { units := [], current := none, parent1 := none, next_id := 1 }).current = some u ∧
      u.level = 1) := by
  constructor
  · exact claim_C8_levels.1 2
      [mkSeg "w8a" 1 (some "第一章") 1000 0 none 1 2,
       mkSeg "w8b" 2 (some "1.1 小节") 500 (1/2) none 3 4]
      [(MergeDecision.CreateNew, "新章节", some 1),
       (MergeDecision.CreateNew, "新小节", some 2)] _ rfl (by decide)
  · exact claim_C8_levels.2 2 2 0 (mkSeg "w8c" 1 (some "序言") 100 0 none 1 1) "无层级"
      { units := [], current := none, parent1 := none, next_id := 1 }

/-! ## C1: parent references -/

/-- The fields of a unit that the parent-reference invariant depends on. -/
def unitKey (u : ReadingUnit) : Nat × Option String × String :=
  (u.level, u.parent_id, u.id)

theorem unitKey_eq {u v : ReadingUnit} (h : unitKey u = unitKey v) :
    u.level = v.level ∧ u.parent_id = v.parent_id ∧ u.id = v.id := by
  simpa [unitKey, Prod.ext_iff] using h

/-- Level-1 units carry no parent. -/
def Lvl1Prop (us : List ReadingUnit) : Prop :=
  ∀ u ∈ us, u.level = 1 → u.parent_id = none

/-- Every level-2 unit either has no parent or references a level-1 unit at
a strictly earlier position. -/
def ParentProp (us : List ReadingUnit) : Prop :=
  ∀ i u, us.get? i = some u → u.level = 2 →
    u.parent_id = none ∨
      ∃ j p, j < i ∧ us.get? j = some p ∧ p.level = 1 ∧ u.parent_id = some p.id

/-- The remembered last level-1 id points at a level-1 unit of the list. -/
def RefProp (us : List ReadingUnit) (pr : Option String) : Prop :=
  pr = none ∨ ∃ k p, us.get? k = some p ∧ p.level = 1 ∧ pr = some p.id

def C1Inv (st : BuildState) : Prop :=
  Lvl1Prop (outUnits st) ∧ ParentProp (outUnits st) ∧ RefProp (outUnits st) st.parent1

theorem lvl1Prop_append (us : List ReadingUnit) (x : ReadingUnit)
    (h : Lvl1Prop us) (hx : x.level = 1 → x.parent_id = none) :
    Lvl1Prop (us ++ [x]) := by
  intro u hu h1
  rcases List.mem_append.mp hu with hm | hm
  · exact h u hm h1
  · simp at hm
    subst hm
    exact hx h1

theorem parentProp_append (us : List ReadingUnit) (x : ReadingUnit)
    (h : ParentProp us)
    (hx : x.level = 2 → x.parent_id = none ∨
      ∃ k p, us.get? k = some p ∧ p.level = 1 ∧ x.parent_id = some p.id) :
    ParentProp (us ++ [x]) := by
  intro i u hget h2
  rcases Nat.lt_or_ge i us.length with hi | hi
  · rw [List.get?_append hi] at hget
    rcases h i u hget h2 with h0 | ⟨j, p, hj, hjget, hp1, hpid⟩
    · exact Or.inl h0
    · exact Or.inr ⟨j, p, hj, by rw [List.get?_append (lt_trans hj hi)]; exact hjget, hp1, hpid⟩
  · have hb : i < us.length + 1 := by
      obtain ⟨hlt, -⟩ := List.get?_eq_some.mp hget
      simpa using hlt
    have hieq : i = us.length := by omega
    subst hieq
    rw [List.get?_concat_length] at hget
    obtain rfl : x = u := by injection hget
    rcases hx h2 with h0 | ⟨k, p, hkget, hp1, hpid⟩
    · exact Or.inl h0
    · obtain ⟨hk, -⟩ := List.get?_eq_some.mp hkget
      exact Or.inr ⟨k, p, hk, by rw [List.get?_append hk]; exact hkget, hp1, hpid⟩

theorem refProp_append (us : List ReadingUnit) (x : ReadingUnit) (pr : Option String)
    (h : RefProp us pr) : RefProp (us ++ [x]) pr := by
  rcases h with h0 | ⟨k, p, hkget, hp1, hpid⟩
  · exact Or.inl h0
  · obtain ⟨hk, -⟩ := List.get?_eq_some.mp hkget
    exact Or.inr ⟨k, p, by rw [List.get?_append hk]; exact hkget, hp1, hpid⟩

theorem key_pointwise_concat (us : List ReadingUnit) (x y : ReadingUnit)
    (hxy : unitKey x = unitKey y) (n : Nat) :
    ((us ++ [x]).get? n).map unitKey = ((us ++ [y]).get? n).map unitKey := by
  rcases lt_trichotomy n us.length with hn | hn | hn
  · rw [List.get?_append hn, List.get?_append hn]
  · subst hn
    rw [List.get?_concat_length, List.get?_concat_length]
    simp [hxy]
  · have h1 : (us ++ [x]).get? n = none := List.get?_eq_none.mpr (by simp; omega)
    have h2 : (us ++ [y]).get? n = none := List.get?_eq_none.mpr (by simp; omega)
    rw [h1, h2]

theorem lvl1Prop_transfer (us vs : List ReadingUnit)
    (hkey : ∀ n, (us.get? n).map unitKey = (vs.get? n).map unitKey)
    (h : Lvl1Prop us) : Lvl1Prop vs := by
  intro u hu h1
  obtain ⟨n, hn⟩ := List.mem_iff_get?.mp hu
  have hthis := hkey n
  rw [hn, Option.map_some'] at hthis
  obtain ⟨u0, hu0, hk⟩ := Option.map_eq_some'.mp hthis
  obtain ⟨hl, hp, -⟩ := unitKey_eq hk
  rw [← hp]
  exact h u0 (List.get?_mem hu0) (by rw [hl, h1])

theorem parentProp_transfer (us vs : List ReadingUnit)
    (hkey : ∀ n, (us.get? n).map unitKey = (vs.get? n).map unitKey)
    (h : ParentProp us) : ParentProp vs := by
  intro i u hget h2
  have hi := hkey i
  rw [hget, Option.map_some'] at hi
  obtain ⟨u0, hu0, hk⟩ := Option.map_eq_some'.mp hi
  obtain ⟨hl, hp, -⟩ := unitKey_eq hk
  rcases h i u0 hu0 (by rw [hl, h2]) with h0 | ⟨j, p, hj, hjget, hp1, hpid⟩
  · exact Or.inl (by rw [← hp, h0])
  · have hj2 := hkey j
    rw [hjget, Option.map_some'] at hj2
    obtain ⟨p', hp', hkp⟩ := Option.map_eq_some'.mp hj2.symm
    obtain ⟨hpl, -, hpi⟩ := unitKey_eq hkp
    exact Or.inr ⟨j, p', hj, hp', hpl.trans hp1, by rw [← hp, hpid, hpi]⟩

theorem refProp_transfer (us vs : List ReadingUnit) (pr : Option String)
    (hkey : ∀ n, (us.get? n).map unitKey = (vs.get? n).map unitKey)
    (h : RefProp us pr) : RefProp vs pr := by
  rcases h with h0 | ⟨k, p, hkget, hp1, hpid⟩
  · exact Or.inl h0
  · have hk2 := hkey k
    rw [hkget, Option.map_some'] at hk2
    obtain ⟨p', hp', hkp⟩ := Option.map_eq_some'.mp hk2.symm
    obtain ⟨hpl, -, hpi⟩ := unitKey_eq hkp
    exact Or.inr ⟨k, p', hp', hpl.trans hp1, by rw [hpid, hpi]⟩

theorem buildStep_c1inv (b : Int) (total i : Nat) (seg : Segment) (dec : DecisionTriple)
    (st : BuildState) (h : C1Inv st) : C1Inv (buildStep b total i seg dec st) := by
  obtain ⟨hl1, hpar, href⟩ := h
  obtain ⟨d, r, l⟩ := dec
  cases d with
  | Merge =>
    rcases hc : st.current with _ | u0
    · -- no open unit: bootstrap a level-1, parent-less unit
      have hout : outUnits (buildStep b total i seg (MergeDecision.Merge, r, l) st) =
          outUnits st ++
            [create_reading_unit b st.next_id seg 1 none (determine_content_type seg i total)] := by
        simp [buildStep, outUnits, hc]
      have hpr : (buildStep b total i seg (MergeDecision.Merge, r, l) st).parent1 =
          st.parent1 := by
        simp [buildStep, hc]
      refine ⟨?_, ?_, ?_⟩
      · rw [hout]
        exact lvl1Prop_append _ _ hl1 (fun _ => rfl)
      · rw [hout]
        refine parentProp_append _ _ hpar ?_
        intro h2
        have h12 : (1 : Nat) = 2 := h2
        exact absurd h12 (by decide)
      · rw [hout, hpr]
        exact refProp_append _ _ _ href
    · -- merge into the open unit: level, parent and id are untouched
      have hout1 : outUnits st = st.units ++ [u0] := by simp [outUnits, hc]
      have hout2 : outUnits (buildStep b total i seg (MergeDecision.Merge, r, l) st) =
          st.units ++ [{ u0 with segment_ids := u0.segment_ids ++ [seg.id],
                                 end_block_id := seg.end_block_id }] := by
        simp [buildStep, outUnits, hc]
      have hpr : (buildStep b total i seg (MergeDecision.Merge, r, l) st).parent1 =
          st.parent1 := by
        simp [buildStep, hc]
      have hkey : ∀ n, ((outUnits st).get? n).map unitKey =
          ((outUnits (buildStep b total i seg (MergeDecision.Merge, r, l) st)).get? n).map
            unitKey := by
        intro n
        rw [hout1, hout2]
        exact key_pointwise_concat st.units u0
          { u0 with segment_ids := u0.segment_ids ++ [seg.id],
                    end_block_id := seg.end_block_id } rfl n
      exact ⟨lvl1Prop_transfer _ _ hkey hl1, parentProp_transfer _ _ hkey hpar,
        hpr ▸ refProp_transfer _ _ _ hkey href⟩
  | CreateNew =>
    have hout : outUnits (buildStep b total i seg (MergeDecision.CreateNew, r, l) st) =
        outUnits st ++
          [create_reading_unit b st.next_id seg (l.getD 1)
            (if l.getD 1 = 2 then st.parent1 else none) (determine_content_type seg i total)] := by
      simp [buildStep, outUnits]
    have hpr : (buildStep b total i seg (MergeDecision.CreateNew, r, l) st).parent1 =
        if l.getD 1 = 1 then
          some (create_reading_unit b st.next_id seg (l.getD 1)
            (if l.getD 1 = 2 then st.parent1 else none) (determine_content_type seg i total)).id
        else st.parent1 := by
      simp [buildStep]
    refine ⟨?_, ?_, ?_⟩
    · rw [hout]
      refine lvl1Prop_append _ _ hl1 ?_
      intro h1
      show (if l.getD 1 = 2 then st.parent1 else none) = none
      have : l.getD 1 = 1 := h1
      rw [this]
      simp
    · rw [hout]
      refine parentProp_append _ _ hpar ?_
      intro h2
      have hlv : l.getD 1 = 2 := h2
      show (if l.getD 1 = 2 then st.parent1 else none) = none ∨
        ∃ k p, (outUnits st).get? k = some p ∧ p.level = 1 ∧
          (if l.getD 1 = 2 then st.parent1 else none) = some p.id
      rw [if_pos hlv]
      exact href
    · rw [hout, hpr]
      by_cases h1 : l.getD 1 = 1
      · rw [if_pos h1]
        exact Or.inr ⟨(outUnits st).length, _, List.get?_concat_length _ _, h1, rfl⟩
      · rw [if_neg h1]
        exact refProp_append _ _ _ href

/-- C1 (amended): in every successful `build` output, level-1 units carry
`parent_id = None`, and every level-2 unit's `parent_id` is either `None`
(permitted when no level-1 `CreateNew` precedes it) or the id of a level-1
unit appearing strictly earlier in the output list.  The claim as literally
stated — that every level-2 unit references an earlier level-1 unit — fails
on an orphan level-2 unit, see the counterexample. -/
theorem claim_C1_parent_references (book_id : Int) (segments : List Segment)
    (decisions : List DecisionTriple) (units : List ReadingUnit)
    (h : ReadingUnitBuilder.build book_id segments decisions = Except.ok units) :
    (∀ u ∈ units, u.level = 1 → u.parent_id = none) ∧
    (∀ i u, units.get? i = some u → u.level = 2 →
      u.parent_id = none ∨
        ∃ j p, j < i ∧ units.get? j = some p ∧ p.level = 1 ∧ u.parent_id = some p.id) := by
  rw [build_ok_inv book_id segments decisions units h]
  have hinv : C1Inv (buildGo book_id segments.length 0 (segments.zip decisions)
      { units := [], current := none, parent1 := none, next_id := 1 }) := by
    refine buildGo_induct book_id segments.length C1Inv (fun _ => True)
      (fun i seg dec st _ hp => buildStep_c1inv book_id segments.length i seg dec st hp)
      (segments.zip decisions) 0 _ (fun _ _ => trivial) ?_
    refine ⟨?_, ?_, Or.inl rfl⟩
    · intro u hu
      simp [outUnits] at hu
    · intro i u hget
      simp [outUnits] at hget
  exact ⟨hinv.1, hinv.2.1⟩

/-- C1 counterexample: a single `CreateNew` decision at level 2 (before any
level-1 unit exists) produces an output whose only unit has level 2 and
`parent_id = None` — there is no earlier level-1 unit it references. -/
theorem claim_C1_counterexample :
    (okD (ReadingUnitBuilder.build 7 [mkSeg "c1" 1 (some "1.1 概述") 500 0 (some 2) 1 2]
      [(MergeDecision.CreateNew, "TOC 二级节点，创建新小节", some 2)])).map
        (fun u => (u.level, u.parent_id)) = [(2, none)] := by
  rfl

theorem claim_C1_witness :
    (∀ u ∈ okD (ReadingUnitBuilder.build 4
        [mkSeg "w1a" 1 (some "第一章") 1000 0 none 1 2,
         mkSeg "w1b" 2 (some "1.1 小节") 500 (1/2) none 3 4]
        [(MergeDecision.CreateNew, "新章节", some 1),
         (MergeDecision.CreateNew, "新小节", some 2)]),
      u.level = 1 → u.parent_id = none) ∧
    (∀ i u, (okD (ReadingUnitBuilder.build 4
        [mkSeg "w1a" 1 (some "第一章") 1000 0 none 1 2,
         mkSeg "w1b" 2 (some "1.1 小节") 500 (1/2) none 3 4]
        [(MergeDecision.CreateNew, "新章节", some 1),
         (MergeDecision.CreateNew, "新小节", some 2)])).get? i = some u → u.level = 2 →
      u.parent_id = none ∨
        ∃ j p, j < i ∧ (okD (ReadingUnitBuilder.build 4
          [mkSeg "w1a" 1 (some "第一章") 1000 0 none 1 2,
           mkSeg "w1b" 2 (some "1.1 小节") 500 (1/2) none 3 4]
          [(MergeDecision.CreateNew, "新章节", some 1),
           (MergeDecision.CreateNew, "新小节", some 2)])).get? j = some p ∧
          p.level = 1 ∧ u.parent_id = some p.id) :=
  claim_C1_parent_references 4
    [mkSeg "w1a" 1 (some "第一章") 1000 0 none 1 2,
     mkSeg "w1b" 2 (some "1.1 小节") 500 (1/2) none 3 4]
    [(MergeDecision.CreateNew, "新章节", some 1),
     (MergeDecision.CreateNew, "新小节", some 2)] _ rfl

/-! ## C5: strong headings under fallback versus full pipeline -/

theorem strong_heading_inv (segment : Segment)
    (hs : extract_heading_strength segment = HeadingStrength.Strong) :
    ∃ hd, segment.heading = some hd ∧ matchStrongL hd.text.data = true := by
  cases hh : segment.heading with
  | none => simp [extract_heading_strength, hh] at hs
  | some hd =>
    cases hmb : matchStrongL hd.text.data with
    | false =>
      cases hw : matchWeakL hd.text.data <;>
        simp [extract_heading_strength, hh, hmb, hw] at hs
    | true => exact ⟨hd, rfl, hmb⟩

theorem afterLit_cons_inv (l : Char) (ls cs : List Char) (r : List Char)
    (h : afterLit (l :: ls) cs = some r) : ∃ tl, cs = l :: tl := by
  cases cs with
  | nil => simp [afterLit] at h
  | cons c tl =>
    by_cases hc : c = l
    · exact ⟨tl, by rw [hc]⟩
    · rw [afterLit, if_neg hc] at h
      cases h

theorem strong_head_not_digit (cs : List Char) (h : matchStrongL cs = true) :
    ∃ c rest, cs = c :: rest ∧ c.isDigit = false := by
  cases cs with
  | nil => simp [matchStrongL, afterLit] at h
  | cons c rest =>
    refine ⟨c, rest, rfl, ?_⟩
    rw [matchStrongL] at h
    simp only [Bool.or_eq_true] at h
    rcases h with (h | h) | h
    · have hc : c = '第' := by
        simp only [Bool.and_eq_true, decide_eq_true_eq] at h
        exact h.1
      rw [hc]
      decide
    · rcases ha : afterLit ('C' :: 'h' :: 'a' :: 'p' :: 't' :: 'e' :: 'r' :: []) (c :: rest) with
        _ | r
      · rw [ha] at h
        cases h
      · obtain ⟨tl, htl⟩ := afterLit_cons_inv _ _ _ _ ha
        obtain rfl : c = 'C' := by injection htl with h1 _
        decide
    · rcases ha : afterLit ('P' :: 'a' :: 'r' :: 't' :: []) (c :: rest) with _ | r
      · rw [ha] at h
        cases h
      · obtain ⟨tl, htl⟩ := afterLit_cons_inv _ _ _ _ ha
        obtain rfl : c = 'P' := by injection htl with h1 _
        decide

theorem section_number_none_of_strong (segment : Segment) (hd : Heading)
    (hh : segment.heading = some hd) (hm : matchStrongL hd.text.data = true) :
    extract_section_number segment = none := by
  obtain ⟨c, rest, hcs, hdig⟩ := strong_head_not_digit hd.text.data hm
  unfold extract_section_number
  rw [hh]
  simp [hcs, List.takeWhile_cons, hdig]

/-- C5 (amended): a segment whose heading matches the strong chapter-heading
pattern always yields `CreateNew` under `FallbackStrategy::apply`; the full
pipeline (features → default-weight score → default-threshold decision) also
yields `CreateNew` provided additionally the heading carries no metadata
keyword (content feature `Body`) and the segment length is at least 800.
(Without those two extra conditions the pipeline can merge a strong-heading
segment — see the counterexample, where a short strong-heading segment falls
into the gray zone and merges.) -/
theorem claim_C5_strong_heading_agreement (segment : Segment) (prev : Option Segment)
    (hs : extract_heading_strength segment = HeadingStrength.Strong)
    (hb : extract_content_feature segment = ContentFeature.Body)
    (hl : 800 ≤ segment.length) :
    (FallbackStrategy.apply FallbackStrategy.new segment).1 = MergeDecision.CreateNew ∧
    (pipeline_decision segment prev).1 = MergeDecision.CreateNew := by
  obtain ⟨hd, hh, hm⟩ := strong_heading_inv segment hs
  constructor
  · simp [FallbackStrategy.apply, hh, hm]
  · have hsec : extract_section_number segment = none :=
      section_number_none_of_strong segment hd hh hm
    have hcontnone : extract_numbering_continuity segment prev = none := by
      cases hpn : prev.bind extract_section_number <;>
        simp [extract_numbering_continuity, hsec, hpn]
    set f := extract_features segment prev with hf
    have hffeat : f.heading_feature = HeadingStrength.Strong := hs
    have hfcont : f.content_feature = ContentFeature.Body := hb
    have hftoc : f.toc_feature = segment.toc_level := rfl
    have hfnum : f.numbering_continuity = none := hcontnone
    have hfcons : f.is_consecutive_strong_heading = f.is_after_strong_heading := by
      show is_consecutive_strong_heading segment prev = is_after_strong_heading prev
      simp [is_consecutive_strong_heading, hh, hm]
    set sc := ScoringEngine.calculate_score ScoringEngine.new f with hsc
    have hhead : calculate_heading_score f = -3 := by
      simp [calculate_heading_score, hffeat]
    have hcont0 : calculate_content_score f = 0 := by
      simp [calculate_content_score, hfcont]
    have hcontnil : calculate_continuity_score f = none := by
      simp [calculate_continuity_score, hfnum]
    have hsc_content : sc.content_score = some 0 := by
      simp [hsc, ScoringEngine.calculate_score, SegmentScore.calculate_total, hcont0]
    have hcr : contentRuleFires sc = false := by
      have h50 : ¬ (5 : ℚ) ≤ 0 := by norm_num
      simp [contentRuleFires, hsc_content, h50]
    have hcase : extract_length_feature segment = LengthFeature.Medium ∨
        extract_length_feature segment = LengthFeature.Long ∨
        extract_length_feature segment = LengthFeature.VeryLong := by
      unfold extract_length_feature
      rw [if_neg (by omega : ¬ segment.length ≤ 299),
        if_neg (by omega : ¬ segment.length ≤ 799)]
      by_cases h1 : segment.length ≤ 1999
      · rw [if_pos h1]
        exact Or.inl rfl
      · rw [if_neg h1]
        by_cases h2 : segment.length ≤ 5999
        · rw [if_pos h2]
          exact Or.inr (Or.inl rfl)
        · rw [if_neg h2]
          exact Or.inr (Or.inr rfl)
    have hlenb : calculate_length_score f ≤ 0 := by
      rcases hcase with h | h | h
      · have hfl : f.length_feature = LengthFeature.Medium := h
        simp only [calculate_length_score, hfl]
        norm_num
      · have hfl : f.length_feature = LengthFeature.Long := h
        simp only [calculate_length_score, hfl]
        norm_num
      · have hfl : f.length_feature = LengthFeature.VeryLong := h
        simp only [calculate_length_score, hfl]
        norm_num
    have hposb : calculate_position_score f ≤ 1 := by
      unfold calculate_position_score
      rw [if_neg (fun hcc => hcc.2 hffeat), hfcons]
      cases haft : f.is_after_strong_heading <;> simp [haft] <;> split_ifs <;> norm_num
    have htocb : dimContrib (calculate_toc_score f) ScoringEngine.new.weights.toc ≤ 3 := by
      rcases hft : f.toc_feature with _ | n
      · simp [calculate_toc_score, hft, dimContrib]
      · simp only [calculate_toc_score, hft, Option.map_some', dimContrib]
        show (if n = 1 then (-3 : ℚ) else if n = 2 then 1 else 2) * (1.5 : ℚ) ≤ 3
        split_ifs <;> norm_num
    have h3 : sc.total_score < 3 := by
      have hexp : sc.total_score =
          dimContrib (calculate_toc_score f) ScoringEngine.new.weights.toc +
          calculate_heading_score f * ScoringEngine.new.weights.heading +
          calculate_length_score f * ScoringEngine.new.weights.length +
          calculate_content_score f * ScoringEngine.new.weights.content +
          calculate_position_score f * ScoringEngine.new.weights.position +
          dimContrib (calculate_continuity_score f) ScoringEngine.new.weights.continuity := by
        simp [hsc, ScoringEngine.calculate_score, SegmentScore.calculate_total, dimContrib]
      rw [hexp, hhead, hcont0, hcontnil]
      have hw : ScoringEngine.new.weights.heading = 6/5 ∧
          ScoringEngine.new.weights.length = 1 ∧ ScoringEngine.new.weights.content = 1 ∧
          ScoringEngine.new.weights.position = 4/5 ∧
          ScoringEngine.new.weights.continuity = 4/5 := by
        refine ⟨?_, rfl, rfl, ?_, ?_⟩ <;> norm_num [ScoringEngine.new]
      obtain ⟨hw1, hw2, hw3, hw4, hw5⟩ := hw
      rw [hw1, hw2, hw3, hw4, hw5, dimContrib_none]
      linarith [htocb, hlenb, hposb]
    show (DecisionEngine.make_decision DecisionEngine.new sc f segment).1 =
      MergeDecision.CreateNew
    have h4 : ¬ (DecisionEngine.new.merge_threshold ≤ sc.total_score) := not_le.mpr h3
    rcases hft : segment.toc_level with _ | n
    · -- no TOC level: score path, ending in rule 5 or the long gray zone
      rw [DecisionEngine.make_decision, if_neg (by simp [hcr]),
        if_neg (fun hcc => by rw [hftoc, hft] at hcc; cases hcc.1),
        if_neg (fun hcc => by rw [hftoc] at hcc; rw [hft] at hcc; cases hcc), if_neg h4]
      by_cases h5 : sc.total_score ≤ DecisionEngine.new.new_threshold
      · rw [if_pos h5]
      · rw [if_neg h5,
          if_neg (not_lt.mpr (show DecisionEngine.new.gray_zone_length ≤ segment.length from hl))]
    · by_cases hn1 : n = 1
      · subst hn1
        rw [DecisionEngine.make_decision, if_neg (by simp [hcr]),
          if_pos ⟨by rw [hftoc, hft], by rw [hfcont]; rfl⟩]
      · by_cases hn2 : n = 2
        · subst hn2
          rw [DecisionEngine.make_decision, if_neg (by simp [hcr]),
            if_neg (fun hcc => by
              rw [hftoc, hft] at hcc
              obtain ⟨hcc1, -⟩ := hcc
              injection hcc1 with hv
              exact absurd hv (by decide)),
            if_pos (by rw [hftoc, hft])]
        · rw [DecisionEngine.make_decision, if_neg (by simp [hcr]),
            if_neg (fun hcc => by
              rw [hftoc, hft] at hcc
              obtain ⟨hcc1, -⟩ := hcc
              injection hcc1 with hv
              exact hn1 hv),
            if_neg (fun hcc => by
              rw [hftoc, hft] at hcc
              injection hcc with hv
              exact hn2 hv),
            if_neg h4]
          by_cases h5 : sc.total_score ≤ DecisionEngine.new.new_threshold
          · rw [if_pos h5]
          · rw [if_neg h5,
              if_neg (not_lt.mpr
                (show DecisionEngine.new.gray_zone_length ≤ segment.length from hl))]

/-- C5 counterexample: the segment with heading "第一章", length 100, no TOC
level and no predecessor matches the strong chapter pattern, so the fallback
creates a new unit, yet the full pipeline scores it at −0.6 (gray zone) and
merges it because its length is below 800 — the two paths disagree. -/
theorem claim_C5_counterexample :
    isStrongHeading "第一章" = true ∧
    (FallbackStrategy.apply FallbackStrategy.new
      (mkSeg "c5" 1 (some "第一章") 100 (1/2) none 1 1)).1 = MergeDecision.CreateNew ∧
    (pipeline_decision (mkSeg "c5" 1 (some "第一章") 100 (1/2) none 1 1) none).1 =
      MergeDecision.Merge := by
  refine ⟨by decide, by decide, ?_⟩
  set seg := mkSeg "c5" 1 (some "第一章") 100 (1/2) none 1 1 with hseg
  set fc := extract_features seg none with hfc
  have hft : fc.toc_feature = none := rfl
  have hfh : fc.heading_feature = HeadingStrength.Strong := by decide
  have hfl : fc.length_feature = LengthFeature.VeryShort := by decide
  have hfcf : fc.content_feature = ContentFeature.Body := by decide
  have hfp : fc.position_in_book = 1/2 := rfl
  have hfa : fc.is_after_strong_heading = false := rfl
  have hfc2 : fc.is_consecutive_strong_heading = false := by decide
  have hfn : fc.numbering_continuity = none := by decide
  set sc := ScoringEngine.calculate_score ScoringEngine.new fc with hsc
  have h1 : calculate_toc_score fc = none := by rw [calculate_toc_score, hft]; rfl
  have h2 : calculate_heading_score fc = -3 := by rw [calculate_heading_score, hfh]
  have h3 : calculate_length_score fc = 3 := by rw [calculate_length_score, hfl]
  have h4 : calculate_content_score fc = 0 := by rw [calculate_content_score, hfcf]
  have h5 : calculate_position_score fc = 0 := by
    rw [calculate_position_score, hfp, hfa, hfc2,
      if_neg (fun hcc => hcc.2 hfh), if_neg (by norm_num : ¬ (1/2 : ℚ) > 0.95)]
    norm_num
  have h6 : calculate_continuity_score fc = none := by
    rw [calculate_continuity_score, hfn]; rfl
  have hcontent : sc.content_score = some 0 := by
    simp [hsc, ScoringEngine.calculate_score, SegmentScore.calculate_total, h4]
  have htot : sc.total_score = -3/5 := by
    have hexp : sc.total_score =
        dimContrib (calculate_toc_score fc) ScoringEngine.new.weights.toc +
        calculate_heading_score fc * ScoringEngine.new.weights.heading +
        calculate_length_score fc * ScoringEngine.new.weights.length +
        calculate_content_score fc * ScoringEngine.new.weights.content +
        calculate_position_score fc * ScoringEngine.new.weights.position +
        dimContrib (calculate_continuity_score fc) ScoringEngine.new.weights.continuity := by
      simp [hsc, ScoringEngine.calculate_score, SegmentScore.calculate_total, dimContrib]
    rw [hexp, h1, h2, h3, h4, h5, h6, dimContrib_none, dimContrib_none]
    norm_num [ScoringEngine.new]
  show (DecisionEngine.make_decision DecisionEngine.new sc fc seg).1 = MergeDecision.Merge
  have hcr : contentRuleFires sc = false := by
    have h50 : ¬ (5 : ℚ) ≤ 0 := by norm_num
    simp [contentRuleFires, hcontent, h50]
  rw [DecisionEngine.make_decision, if_neg (by simp [hcr]),
    if_neg (fun hcc => by rw [hft] at hcc; cases hcc.1),
    if_neg (fun hcc => by rw [hft] at hcc; cases hcc),
    if_neg (by rw [htot]; norm_num [DecisionEngine.new]),
    if_neg (by rw [htot]; norm_num [DecisionEngine.new]),
    if_pos (by decide : seg.length < DecisionEngine.new.gray_zone_length)]

theorem claim_C5_witness :
    (FallbackStrategy.apply FallbackStrategy.new
      (mkSeg "w5" 1 (some "第十章") 900 (1/2) none 1 1)).1 = MergeDecision.CreateNew ∧
    (pipeline_decision (mkSeg "w5" 1 (some "第十章") 900 (1/2) none 1 1) none).1 =
      MergeDecision.CreateNew :=
  claim_C5_strong_heading_agreement (mkSeg "w5" 1 (some "第十章") 900 (1/2) none 1 1) none
    (by decide) (by decide) (by decide)
